import Mathlib

/-!
Verification of the SARA voice-ordering service (src/app.py and
src/conversation_flow.py) against its natural-language specification.

The Python modules are shallowly embedded: dynamic JSON dictionaries become
association lists over a small `JVal` value type, Redis reads become a
`StoreRead` value, money (Python floats holding decimal prices) is modelled
as `ℚ`, and times of day as seconds since midnight (Python `datetime.time`
comparisons are lexicographic, i.e. seconds comparisons).  Each definition
mirrors one Python function and keeps its name where Lean allows it.
-/

/-- A JSON value as it occurs in the stored overrides / request bodies:
booleans, integers, strings and null.  (Floats and nested containers never
reach the code paths modelled here.) -/
inductive JVal where
  | jb (b : Bool)
  | jn (n : Int)
  | js (s : String)
  | jnull
deriving DecidableEq

/-- Python truthiness of a `JVal`, as used by `bool(...)` and `if v:`. -/
def truthy : JVal → Bool
  | .jb b => b
  | .jn n => n != 0
  | .js s => s ≠ ""
  | .jnull => false

/-- Truthiness of `dict.get(k)`: a missing key (`None`) is falsy. -/
def truthyO : Option JVal → Bool
  | some v => truthy v
  | none => false

/-- `int(v)` guarded by `try/except` returning 0 on failure, as in `_norm`
inside `admin_toggles` / `_ovr_save`; also used for the `int(...)` casts in
`evaluate_status` (there a non-numeric string would raise in Python; that
crash path is modelled as the same 0 default and is unreachable for records
written by the admin endpoint). -/
def pyIntOr0 : Option JVal → Int
  | some (.jn n) => n
  | some (.jb b) => if b then 1 else 0
  | some (.js s) => (s.toInt?).getD 0
  | some .jnull => 0
  | none => 0

/-- Outcome of reading the overrides key from Redis: a store/JSON error
(`except` branch), an absent or empty value (`if not raw`), or a parsed
JSON object given by its key/value pairs. -/
inductive StoreRead where
  | err
  | absent
  | val (data : List (String × JVal))
deriving DecidableEq

/-- `DEFAULT_OVERRIDES` from src/app.py line 130 (identical in
src/conversation_flow.py line 103): the six known override keys and their
defaults.  Note there is no `kitchen_closed` and no `pickup_enabled` key. -/
def DEFAULT_OVERRIDES : List (String × JVal) :=
  [("bot_enabled", .jb true),
   ("pasta_available", .jb true),
   ("delay_pasta_minutes", .jn 0),
   ("delay_schotels_minutes", .jn 0),
   ("is_open_override", .js "auto"),
   ("delivery_enabled", .jb false)]

/-- `load_overrides` (src/app.py lines 140-150, `_ovr_load` in
src/conversation_flow.py): start from the defaults and overwrite only keys
already present in the defaults; any error yields the plain defaults. -/
def load_overrides : StoreRead → List (String × JVal)
  | .err => DEFAULT_OVERRIDES
  | .absent => DEFAULT_OVERRIDES
  | .val data => DEFAULT_OVERRIDES.map (fun kv => (kv.1, (data.lookup kv.1).getD kv.2))

/-- Opening window start, 16:00, in seconds of day (src/app.py line 37). -/
def OPEN_START : Nat := 16 * 3600

/-- Opening window end, 22:00 (src/app.py line 37). -/
def OPEN_END : Nat := 22 * 3600

/-- Delivery window start, 17:00 (src/app.py line 38). -/
def DEL_START : Nat := 17 * 3600

/-- Delivery window end, 21:30 (src/app.py line 38). -/
def DEL_END : Nat := 21 * 3600 + 30 * 60

/-- Result of `_auto` (src/app.py lines 172-177): automatic mode and
delivery-window flag for a time of day `t` in seconds. -/
structure AutoStatus where
  mode : String
  delivery_window : Bool
deriving DecidableEq

/-- `_auto`: `open_now = OPEN_START <= t < OPEN_END`,
`delivery_now = open_now and (DEL_START <= t < DEL_END)`. -/
def _auto (t : Nat) : AutoStatus :=
  let open_now := decide (OPEN_START ≤ t ∧ t < OPEN_END)
  { mode := if open_now then "open" else "closed"
    delivery_window := open_now && decide (DEL_START ≤ t ∧ t < DEL_END) }

/-- The mode computed by `evaluate_status` (src/app.py lines 182-184):
the `is_open_override` value forces open/closed, otherwise automatic. -/
def statusMode (ov : List (String × JVal)) (t : Nat) : String :=
  if ov.lookup "is_open_override" = some (JVal.js "open") then "open"
  else if ov.lookup "is_open_override" = some (JVal.js "closed") then "closed"
  else (_auto t).mode

/-- The `delivery_enabled` flag of `evaluate_status` (src/app.py line 185):
`False if mode == "closed" else bool(ov.get("delivery_enabled") or
auto["delivery_window"])`. -/
def statusDelivery (ov : List (String × JVal)) (t : Nat) : Bool :=
  if statusMode ov t = "closed" then false
  else truthyO (ov.lookup "delivery_enabled") || (_auto t).delivery_window

/-- The `RuntimeOut` record returned by `evaluate_status` (src/app.py lines
162-170); the `now` string and constant `window` dict are omitted, the time
of day being the `t` argument. -/
structure RuntimeOut where
  mode : String
  delivery_enabled : Bool
  bot_enabled : Bool
  pasta_available : Bool
  delay_pasta_minutes : Int
  delay_schotels_minutes : Int
deriving DecidableEq

/-- `evaluate_status` (src/app.py lines 179-196).  `runtime_status` in
src/conversation_flow.py lines 148-163 is the byte-for-byte same
computation returning the same fields as a dict. -/
def evaluate_status (read : StoreRead) (t : Nat) : RuntimeOut :=
  let ov := load_overrides read
  { mode := statusMode ov t
    delivery_enabled := statusDelivery ov t
    bot_enabled := truthyO (ov.lookup "bot_enabled")
    pasta_available := truthyO (ov.lookup "pasta_available")
    delay_pasta_minutes := pyIntOr0 (ov.lookup "delay_pasta_minutes")
    delay_schotels_minutes := pyIntOr0 (ov.lookup "delay_schotels_minutes") }

/-- `runtime_status` (src/conversation_flow.py lines 148-163): identical to
`evaluate_status`. -/
def runtime_status (read : StoreRead) (t : Nat) : RuntimeOut :=
  evaluate_status read t

-- ---------------------------------------------------------------------
-- Admin toggles endpoint (src/app.py lines 576-597, `_ovr_save` in
-- src/conversation_flow.py lines 124-138)
-- ---------------------------------------------------------------------

/-- The allowed delay values `[0,10,20,30,45,60]` (src/app.py line 592). -/
def allowedDelays : List Int := [0, 10, 20, 30, 45, 60]

/-- `min(allowed, key=lambda a: abs(a-n))`: the first element of the allowed
list at minimal absolute distance from `n` (Python `min` keeps the first
minimum, so later elements replace only on strictly smaller distance). -/
def nearestAllowed (n : Int) : Int :=
  [(10 : Int), 20, 30, 45, 60].foldl
    (fun best a => if (a - n).natAbs < (best - n).natAbs then a else best) 0

/-- `_norm` inside `admin_toggles`: coerce to int (0 on failure/absence),
then snap to the nearest allowed delay value. -/
def _norm_delay (v : Option JVal) : Int := nearestAllowed (pyIntOr0 v)

/-- Python `body[k] = v` on a dict modelled as an association list with
unique keys: replace the entry if the key exists (keeping its position, as
CPython dicts do), else append the pair at the end. -/
def setKV : List (String × JVal) → String → JVal → List (String × JVal)
  | [], k, v => [(k, v)]
  | kv :: rest, k, v => if kv.1 = k then (k, v) :: rest else kv :: setKV rest k v

/-- `save_overrides` (src/app.py lines 152-159): merge the request body over
the defaults, keeping only the six default keys, and return the merged
record (which is also what gets written to the store). -/
def save_overrides (body : List (String × JVal)) : List (String × JVal) :=
  DEFAULT_OVERRIDES.map (fun kv => (kv.1, (body.lookup kv.1).getD kv.2))

/-- `OVERRIDES_TTL_MIN` default (src/app.py line 138). -/
def OVERRIDES_TTL_MIN : Int := 180

/-- The HTTP outcome of `POST /admin/toggles`: a 400 `HTTPException`
or a 200 body `{ok, saved, ttl_minutes}`. -/
inductive AdminResp where
  | badRequest (detail : String)
  | ok (saved : List (String × JVal)) (ttl_minutes : Int)
deriving DecidableEq

/-- Whether an admin response is a 4xx error. -/
def isBadRequest : AdminResp → Bool
  | .badRequest _ => true
  | .ok _ _ => false

/-- First body mutation of `admin_toggles` (src/app.py lines 587-588):
an `is_open_override` value outside `{"auto","open","closed"}` (including a
missing key or a non-string) is replaced by `"auto"`. -/
def adminBody1 (body : List (String × JVal)) : List (String × JVal) :=
  if body.lookup "is_open_override" = some (JVal.js "auto")
      ∨ body.lookup "is_open_override" = some (JVal.js "open")
      ∨ body.lookup "is_open_override" = some (JVal.js "closed")
  then body
  else setKV body "is_open_override" (.js "auto")

/-- The body after both delay mutations of `admin_toggles` (src/app.py
lines 594-595): each `delay_*` value is snapped by `_norm`. -/
def adminBody3 (body : List (String × JVal)) : List (String × JVal) :=
  let body1 := adminBody1 body
  let body2 := setKV body1 "delay_pasta_minutes"
    (.jn (_norm_delay (body1.lookup "delay_pasta_minutes")))
  setKV body2 "delay_schotels_minutes"
    (.jn (_norm_delay (body2.lookup "delay_schotels_minutes")))

/-- `admin_toggles` (src/app.py lines 576-597).  The input is the parsed
JSON body (`none` when `request.json()` raised, giving the only 400).  The
second component is the record written to the overrides store (`none` when
nothing is written).  Out-of-range `is_open_override` values are silently
replaced by `"auto"`; `delay_*` values are snapped to the nearest allowed
value by `_norm`; the merged record is then stored and echoed back. -/
def admin_toggles (bodyOpt : Option (List (String × JVal))) :
    AdminResp × Option (List (String × JVal)) :=
  match bodyOpt with
  | none => (.badRequest "Invalid JSON", none)
  | some body =>
    let saved := save_overrides (adminBody3 body)
    (.ok saved OVERRIDES_TTL_MIN, some saved)

-- ---------------------------------------------------------------------
-- Text normalisation and utterance parsing (src/conversation_flow.py)
-- ---------------------------------------------------------------------

/-- The whitespace characters of Python's `\s` (ASCII range), used by
`.strip()`, `\s+` collapsing and the quantity regex. -/
def isPySpace (c : Char) : Bool :=
  c ∈ [' ', Char.ofNat 9, Char.ofNat 10, Char.ofNat 13, Char.ofNat 12, Char.ofNat 11]

/-- `str.lower()` restricted to ASCII (the inputs reaching the matcher are
ASCII after normalisation). -/
def pyLower (s : String) : String := String.mk (s.data.map Char.toLower)

/-- `str.strip()`: drop leading and trailing whitespace. -/
def pyStrip (s : String) : String :=
  String.mk (((s.data.dropWhile isPySpace).reverse.dropWhile isPySpace).reverse)

/-- Unicode NFD decomposition followed by removal of combining marks
(`unicodedata.category(ch) != "Mn"`), modelled for the Latin-1 accented
letters that occur in Dutch menu text: each accented letter decomposes to
its base letter plus a mark, and the mark is dropped. -/
def accentFold (c : Char) : Char :=
  if c ∈ ['á', 'à', 'â', 'ä', 'ã', 'å'] then 'a'
  else if c ∈ ['é', 'è', 'ê', 'ë'] then 'e'
  else if c ∈ ['í', 'ì', 'î', 'ï'] then 'i'
  else if c ∈ ['ó', 'ò', 'ô', 'ö', 'õ'] then 'o'
  else if c ∈ ['ú', 'ù', 'û', 'ü'] then 'u'
  else if c ∈ ['ç'] then 'c'
  else if c ∈ ['ñ'] then 'n'
  else if c ∈ ['ý', 'ÿ'] then 'y'
  else c

/-- Fold curly quotes (U+2019, U+2018) and the backtick (U+0060) to the
straight apostrophe (U+0027), as the three `replace` calls in `_norm_txt`
do. -/
def quoteFold (c : Char) : Char :=
  if c ∈ [Char.ofNat 8217, Char.ofNat 8216, Char.ofNat 96] then Char.ofNat 39 else c

/-- `re.sub(r"[^a-z0-9\s\-\&]", " ", s)`: any character outside the kept
set becomes a space. -/
def keepOrSpace (c : Char) : Char :=
  if ('a' ≤ c ∧ c ≤ 'z') ∨ c.isDigit = true ∨ isPySpace c = true ∨ c ∈ ['-', '&'] then c
  else ' '

/-- `re.sub(r"\s+", " ", s)`: collapse every whitespace run to one space.
The Boolean records whether the previous emitted character closed a run. -/
def collapseWs : List Char → Bool → List Char
  | [], _ => []
  | c :: rest, prevWs =>
    if isPySpace c then
      if prevWs then collapseWs rest true else ' ' :: collapseWs rest true
    else c :: collapseWs rest false

/-- Left-to-right non-overlapping replacement of a non-empty pattern, as
`str.replace`; the fuel bounds the number of scan steps. -/
def replaceAllCL (pat rep : List Char) : Nat → List Char → List Char
  | _, [] => []
  | 0, l => l
  | fuel + 1, c :: rest =>
    if pat.isEmpty = false ∧ pat.isPrefixOf (c :: rest) then
      rep ++ replaceAllCL pat rep fuel ((c :: rest).drop pat.length)
    else c :: replaceAllCL pat rep fuel rest

/-- `str.replace` on strings. -/
def strReplace (s pat rep : String) : String :=
  String.mk (replaceAllCL pat.data rep.data (s.data.length + 1) s.data)

/-- `_norm_txt` (src/conversation_flow.py lines 25-33): lower-case, strip,
NFD with marks removed, quote folding, the (inert) `’s → s` replacement
(inert because the preceding fold already removed U+2019), non-kept
characters to spaces, whitespace collapsed, stripped. -/
def _norm_txt (s : String) : String :=
  let s1 := pyStrip (pyLower s)
  let s2 := String.mk (s1.data.map accentFold)
  let s3 := String.mk (s2.data.map quoteFold)
  let s4 := strReplace s3 (String.mk [Char.ofNat 8217, 's']) "s"
  let s5 := String.mk (s4.data.map keepOrSpace)
  pyStrip (String.mk (collapseWs s5.data false))

/-- Contiguous-sublist test used for Python's `needle in hay`. -/
def listInfix (needle : List Char) : List Char → Bool
  | [] => needle.isEmpty
  | c :: rest => needle.isPrefixOf (c :: rest) || listInfix needle rest

/-- Python `needle in hay` on strings. -/
def strContains (hay needle : String) : Bool := listInfix needle.data hay.data

/-- `any(k in text for k in keys)`. -/
def containsAny (hay : String) (keys : List String) : Bool :=
  keys.any (fun k => strContains hay k)

/-- `_hawai_norm` (src/conversation_flow.py lines 216-220): fold the
hawaii spelling variants, in source order. -/
def _hawai_norm (s : String) : String :=
  strReplace (strReplace (strReplace (strReplace s "hawaii" "hawai")
    "hawa i" "hawai") "hawaï" "hawai") "hawaÃ¯" "hawai"

/-- Split a character list into the maximal runs NOT satisfying the
separator predicate, dropping empty runs (as Python `split()` and `\w`
run extraction do). -/
def splitRuns (p : Char → Bool) : List Char → List Char → List (List Char)
  | [], acc => if acc.isEmpty then [] else [acc.reverse]
  | c :: rest, acc =>
    if p c then (if acc.isEmpty then [] else [acc.reverse]) ++ splitRuns p rest []
    else splitRuns p rest (c :: acc)

/-- Python `s.split()` (whitespace split, no empties). -/
def pySplit (s : String) : List String := (splitRuns isPySpace s.data []).map String.mk

/-- `\w` for the ASCII inputs produced by `_norm_txt`. -/
def isWordChar (c : Char) : Bool := c.isAlphanum || c ∈ ['_']

/-- The maximal `\w`-runs of a string (between `\b` boundaries). -/
def wordRuns (s : String) : List String :=
  (splitRuns (fun c => !(isWordChar c)) s.data []).map String.mk

/-- `re.search(r"\bpizza?s?\b", utt_norm)`: since the pattern consists of
word characters bounded by `\b` on both sides, it matches exactly when a
maximal word run equals one of its four expansions. -/
def pizzaMention (utt_norm : String) : Bool :=
  (wordRuns utt_norm).any (fun w => w ∈ ["pizz", "pizza", "pizzs", "pizzas"])

/-- Value of a decimal digit string (the argument is all digits). -/
def digitsToNat (l : List Char) : Nat := l.foldl (fun n c => n * 10 + (c.toNat - 48)) 0

/-- `''.join(ch for ch in s if ch.isdigit())`. -/
def digitsOf (s : String) : String := String.mk (s.data.filter Char.isDigit)

/-- `NUMWORDS` (src/conversation_flow.py lines 196-207). -/
def NUMWORDS : List (String × Nat) :=
  [("een", 1), ("één", 1), ("1", 1), ("twee", 2), ("2", 2), ("drie", 3), ("3", 3),
   ("vier", 4), ("4", 4), ("vijf", 5), ("5", 5), ("zes", 6), ("6", 6),
   ("zeven", 7), ("7", 7), ("acht", 8), ("8", 8), ("negen", 9), ("9", 9),
   ("tien", 10), ("10", 10)]

/-- `_num_from_word` (src/conversation_flow.py line 209). -/
def _num_from_word (w : String) : Option Nat := NUMWORDS.lookup w

/-- The splitting alternatives of `_split_phrases`, in the order the regex
alternation tries them (`" en dan "` is unreachable behind `" en "`). -/
def sepCores : List (List Char) :=
  [",".data, " en ".data, " plus ".data, " & ".data, " en dan ".data]

/-- Try to match one separator at the head; on success drop it and the
trailing `\s*`. -/
def trySep (l : List Char) : Option (List Char) :=
  match sepCores.find? (fun core => core.isPrefixOf l) with
  | some core => some ((l.drop core.length).dropWhile isPySpace)
  | none => none

/-- Scanner for `re.split` over the connective separators; the fuel bounds
the scan steps (each step consumes at least one character). -/
def splitGo : Nat → List Char → List Char → List (List Char)
  | 0, l, acc => [acc.reverse ++ l]
  | _ + 1, [], acc => [acc.reverse]
  | fuel + 1, c :: rest, acc =>
    match trySep (c :: rest) with
    | some rest2 => acc.reverse :: splitGo fuel rest2 []
    | none => splitGo fuel rest (c :: acc)

/-- `_split_phrases` (src/conversation_flow.py lines 212-214): split on the
connectives and keep non-empty segments. -/
def _split_phrases (txt : String) : List String :=
  ((splitGo (txt.data.length + 1) txt.data []).map String.mk).filter (fun p => p ≠ "")

-- ---------------------------------------------------------------------
-- Menu index and item parsing (src/conversation_flow.py lines 39-86,
-- 222-270)
-- ---------------------------------------------------------------------

/-- A loaded menu item as `_add_item` builds it: code, display name, price
(a positive decimal, modelled as `ℚ`), normalised name and its tokens of
length ≥ 3. -/
structure MenuItem where
  code : String
  name : String
  price : ℚ
  norm : String
  tokens : List String
deriving DecidableEq

/-- `_add_item`'s derived fields (src/conversation_flow.py lines 48-65):
`norm = _norm_txt(name)`, `tokens = [t for t in norm.split() if len(t) >= 3]`.
The menu itself is configuration loaded from a JSON file that is not part
of the two source files, so the menu list is a parameter of the model. -/
def mkMenuItem (code name : String) (price : ℚ) : MenuItem :=
  let norm := _norm_txt name
  { code := code, name := name, price := price, norm := norm,
    tokens := (pySplit norm).filter (fun t => 3 ≤ t.length) }

/-- `len(set(toks) & set(segtoks))`: number of distinct shared tokens. -/
def tokenOverlap (toks segtoks : List String) : Nat :=
  (toks.eraseDups.filter (fun t => segtoks.contains t)).length

/-- `_match_menu_segment` (src/conversation_flow.py lines 222-243):
first a substring match in either direction on the normalised names, then
the best token overlap (ties keep the earlier menu item, matching the
strict `>` in the source), requiring overlap ≥ 1. -/
def _match_menu_segment (menu : List MenuItem) (seg0 : String) : Option MenuItem :=
  let seg := _hawai_norm (_norm_txt seg0)
  if seg = "" then none
  else
    match menu.find? (fun it =>
        let n := _hawai_norm it.norm
        strContains seg n || strContains n seg) with
    | some it => some it
    | none =>
      let segtoks := (pySplit seg).filter (fun t => 3 ≤ t.length)
      let best := menu.foldl (fun acc it =>
          let inter := tokenOverlap it.tokens segtoks
          if acc.2 < inter then (some it, inter) else acc)
        ((none : Option MenuItem), 0)
      if 1 ≤ best.2 then best.1 else none

/-- A basket line `{code, name, price, qty}` as stored in the session. -/
structure Item where
  code : String
  name : String
  price : ℚ
  qty : Nat
deriving DecidableEq

/-- `[a-zé]` of the quantity regex. -/
def isQtyLetter (c : Char) : Bool := ('a' ≤ c ∧ c ≤ 'z') ∨ c ∈ ['é']

/-- The quantity prefix `^((\d+)|([a-zé]+))\s+(.+)$` of `_parse_items`
combined with the `int(...)` / `NUMWORDS` quantity extraction and the
`if qty:` truthiness guard: returns the quantity and the tail, or `none`
when the regex fails or the quantity is 0/unknown.  (On `_norm_txt` output
the greedy `\s+`/`(.+)` backtracking cannot strand the `.+`, because
normalised text has single internal spaces and no trailing space.) -/
def parseQtyPrefix (p : String) : Option (Nat × String) :=
  let l := p.data
  let digits := l.takeWhile Char.isDigit
  if digits.isEmpty = false then
    let rest := l.drop digits.length
    let ws := rest.takeWhile isPySpace
    if ws.isEmpty = false ∧ ws.length < rest.length then
      let qty := digitsToNat digits
      if qty ≠ 0 then some (qty, String.mk (rest.drop ws.length)) else none
    else none
  else
    let letters := l.takeWhile isQtyLetter
    if letters.isEmpty = false then
      let rest := l.drop letters.length
      let ws := rest.takeWhile isPySpace
      if ws.isEmpty = false ∧ ws.length < rest.length then
        match _num_from_word (String.mk letters) with
        | some q => if q ≠ 0 then some (q, String.mk (rest.drop ws.length)) else none
        | none => none
      else none
    else none

/-- `_parse_items` (src/conversation_flow.py lines 245-270): split into
phrases; phase 1 takes quantity-prefixed phrases with a menu hit,
deduplicated within the utterance by normalised name, quantities clamped
to ≥ 1; phase 2 (only when phase 1 found nothing) takes a plain menu hit
per phrase with quantity 1. -/
def _parse_items (menu : List MenuItem) (utt : String) : List Item :=
  let txt := _hawai_norm (_norm_txt utt)
  let parts := _split_phrases txt
  let phase1 := parts.foldl
    (fun (acc : List Item × List String) p =>
      match parseQtyPrefix p with
      | some (qty, tail) =>
        match _match_menu_segment menu tail with
        | some hit =>
          if acc.2.contains hit.norm then acc
          else (acc.1 ++ [{ code := hit.code, name := hit.name, price := hit.price,
                            qty := max 1 qty }], acc.2 ++ [hit.norm])
        | none => acc
      | none => acc)
    ([], [])
  if phase1.1.isEmpty = false then phase1.1
  else parts.foldl
    (fun acc p =>
      match _match_menu_segment menu p with
      | some hit => acc ++ [{ code := hit.code, name := hit.name, price := hit.price, qty := 1 }]
      | none => acc)
    []

-- ---------------------------------------------------------------------
-- Money, fees, ETA (src/conversation_flow.py lines 272-293)
-- ---------------------------------------------------------------------

/-- `sum(i["qty"] * float(i["price"]) for i in items)` before rounding. -/
def itemsSum (items : List Item) : ℚ := (items.map (fun i => (i.qty : ℚ) * i.price)).sum

/-- Python `round(x, 2)`, modelled over `ℚ` (Python rounds half to even on
binary floats; the two agree except on exact half-cent boundaries, which
the decimal prices in play never hit). -/
def round2 (x : ℚ) : ℚ := ((round (x * 100) : ℤ) : ℚ) / 100

/-- `_total` (src/conversation_flow.py lines 276-277). -/
def _total (items : List Item) : ℚ := round2 (itemsSum items)

/-- `_items_text` (src/conversation_flow.py lines 273-274). -/
def _items_text (items : List Item) : String :=
  if items.isEmpty then "geen items"
  else String.intercalate ", " (items.map (fun i => toString i.qty ++ "× " ++ i.name))

/-- A delivery zone `{postcodes, fee}` of the delivery config (loaded from
a JSON file outside the two source files, hence a model parameter). -/
structure Zone where
  postcodes : List String
  fee : ℚ
deriving DecidableEq

/-- `pc.replace(" ", "").upper()`. -/
def stripSpacesUpper (s : String) : String :=
  String.mk ((s.data.filter (fun c => c ≠ ' ')).map Char.toUpper)

/-- `_delivery_fee` (src/conversation_flow.py lines 279-286): the fee of
the first zone owning a prefix of the normalised postcode, else 0; an
empty postcode short-circuits to 0. -/
def _delivery_fee (zones : List Zone) (pc : String) : ℚ :=
  if pc = "" then 0
  else
    let p := stripSpacesUpper pc
    match zones.find? (fun z =>
        z.postcodes.any (fun xx => (stripSpacesUpper xx).data.isPrefixOf p.data)) with
    | some z => z.fee
    | none => 0

/-- The SLA minutes of the delivery config. -/
structure SLA where
  pickup_minutes : Int
  pickup_combo_minutes : Int
  delivery_minutes : Int
deriving DecidableEq

/-- `_eta_minutes` (src/conversation_flow.py lines 288-290). -/
def _eta_minutes (sla : SLA) (kind : String) (d_pasta d_schotels : Int) : Int :=
  (if kind = "delivery" then sla.delivery_minutes else sla.pickup_minutes)
    + max d_pasta d_schotels

/-- `(datetime.now(TZ) + timedelta(minutes=mins)).strftime("%H:%M")`,
modelled as minutes of day modulo 24 h. -/
def readyHM (nowSec : Nat) (mins : Int) : Int := ((nowSec : Int) / 60 + mins) % 1440

-- ---------------------------------------------------------------------
-- Call session, customer lookup, address extraction
-- (src/conversation_flow.py lines 177-193, 374-432)
-- ---------------------------------------------------------------------

/-- The `customer` sub-dict of a call session; absent keys are `none`. -/
structure Customer where
  tel : Option String := none
  postcode : Option String := none
  straat : Option String := none
  huisnr : Option String := none
deriving DecidableEq

/-- A `CallSession` as stored under `call:<sid>` (src/conversation_flow.py
line 187).  `fulfilment`/`payment` are set only on src/app.py paths not
exercised by the flow manager but belong to the record. -/
structure Session where
  state : String
  items : List Item
  total : ℚ
  fulfilment : Option String
  customer : Customer
  payment : Option String
deriving DecidableEq

/-- The default session returned by `_getc` on a missing/broken record. -/
def defaultSession : Session :=
  { state := "greet", items := [], total := 0, fulfilment := none,
    customer := {}, payment := none }

/-- Truthiness of `customer.get(k)` for string fields: present and
non-empty. -/
def truthyS : Option String → Bool
  | some s => s ≠ ""
  | none => false

/-- One row of the customer CSV (columns used by the lookup). -/
structure CsvRow where
  phone : String
  mobile : String
  postcode : String
  street1 : String
  house_number : String
deriving DecidableEq

/-- The `found` dict built from a matching CSV row. -/
structure FoundRec where
  postcode : String
  straat : String
  huisnr : String
deriving DecidableEq

/-- The CSV lookup of the `phone` state (src/conversation_flow.py lines
378-396): with the file present and a non-empty digit string, the first
row whose digit-normalised `phone` or `mobile` equals it; read errors and
absence give `none`. -/
def csvLookup (csvExists : Bool) (rows : List CsvRow) (tel : String) : Option FoundRec :=
  if csvExists ∧ tel ≠ "" then
    match rows.find? (fun row => tel = digitsOf row.phone ∨ tel = digitsOf row.mobile) with
    | some row => some { postcode := row.postcode, straat := row.street1,
                         huisnr := row.house_number }
    | none => none
  else none

/-- `s["customer"].update(found)`. -/
def updFound (c : Customer) (f : FoundRec) : Customer :=
  { c with postcode := some f.postcode, straat := some f.straat, huisnr := some f.huisnr }

/-- Whether the next character is a `\w` character (for `\b` tests). -/
def nextIsWord : List Char → Bool
  | c :: _ => isWordChar c
  | [] => false

/-- The suffix `\s?[a-zA-Z]{2}\b` of the postcode regex after the four
digits: an optional single whitespace, two letters, then a non-word
boundary; returns the matched characters. -/
def pcTail : List Char → Option (List Char)
  | c1 :: c2 :: rest2 =>
    if isPySpace c1 then
      match rest2 with
      | b :: rest3 =>
        if c2.isAlpha ∧ b.isAlpha ∧ nextIsWord rest3 = false then some [c1, c2, b]
        else none
      | [] => none
    else if c1.isAlpha ∧ c2.isAlpha ∧ nextIsWord rest2 = false then some [c1, c2]
    else none
  | _ => none

/-- Match `\b\d{4}\s?[a-zA-Z]{2}\b` at the current position (the boundary
before the digits is checked by the caller); a fifth digit makes the tail
fail, as in the regex. -/
def matchPCAt (l : List Char) : Option (List Char) :=
  match l with
  | d1 :: d2 :: d3 :: d4 :: rest =>
    if d1.isDigit ∧ d2.isDigit ∧ d3.isDigit ∧ d4.isDigit then
      match pcTail rest with
      | some t => some ([d1, d2, d3, d4] ++ t)
      | none => none
    else none
  | _ => none

/-- Leftmost scan for the postcode pattern, tracking the previous
character for the leading `\b`. -/
def searchPCGo : Option Char → List Char → Option String
  | _, [] => none
  | prev, c :: rest =>
    let bnd := match prev with
      | none => true
      | some pch => !(isWordChar pch)
    if bnd then
      match matchPCAt (c :: rest) with
      | some m => some (String.mk m)
      | none => searchPCGo (some c) rest
    else searchPCGo (some c) rest

/-- `re.search(r"\b\d{4}\s?[a-zA-Z]{2}\b", utt)`, group 0. -/
def searchPostcode (utt : String) : Option String := searchPCGo none utt.data

/-- Match `(\d{1,4}[a-zA-Z]?)\b` at the current position: one to four
digits (a longer digit run cannot match, since every shortening leaves a
word character after the group), an optional letter, then a non-word
boundary. -/
def matchHNAt (l : List Char) : Option (List Char) :=
  let digits := l.takeWhile Char.isDigit
  if digits.isEmpty ∨ 4 < digits.length then none
  else
    match l.drop digits.length with
    | [] => some digits
    | c :: rest2 =>
      if c.isAlpha then
        if nextIsWord rest2 then none else some (digits ++ [c])
      else if isWordChar c then none
      else some digits

/-- Leftmost scan for the house-number pattern. -/
def searchHNGo : Option Char → List Char → Option String
  | _, [] => none
  | prev, c :: rest =>
    let bnd := match prev with
      | none => true
      | some pch => !(isWordChar pch)
    if bnd then
      match matchHNAt (c :: rest) with
      | some m => some (String.mk m)
      | none => searchHNGo (some c) rest
    else searchHNGo (some c) rest

/-- `re.search(r"\b(\d{1,4}[a-zA-Z]?)\b", utt)`, group 1. -/
def searchHouseNum (utt : String) : Option String := searchHNGo none utt.data

/-- The customer updates of the `address` state (src/conversation_flow.py
lines 419-422): store the normalised postcode and the house number when
the respective regex matched. -/
def addrCustomer (c : Customer) (utt : String) : Customer :=
  let c1 := match searchPostcode utt with
    | some m => { c with postcode := some (stripSpacesUpper m) }
    | none => c
  match searchHouseNum utt with
  | some m => { c1 with huisnr := some m }
  | none => c1

-- ---------------------------------------------------------------------
-- The dialogue state machine (FlowManager.handle_utterance,
-- src/conversation_flow.py lines 306-435)
-- ---------------------------------------------------------------------

/-- The caller-facing messages, one constructor per prompt key, carrying
the values substituted into the template. -/
inductive Msg where
  | askItems
  | askItemsMore
  | itemAdded (qty : Nat) (name : String)
  | askPizzaWhich
  | replyStartOrder
  | confirmItems (itemsText : String)
  | askItemsConfirmOk
  | totalAfterConfirm (amount : Int)
  | askFulfilment
  | pickupEta (timeHM : Int)
  | closingPickup
  | askPhoneForDelivery
  | confirmLookupFound (straat huisnr postcode : String)
  | confirmLookupMissing
  | deliveryEta (timeHM : Int)
  | closingDelivery
  | askPostcodeHouse
  | fallback1
deriving DecidableEq

/-- The external writes a DSM turn or the order endpoint can perform:
a session-store write (`_savec`), the keyed order write plus index update
(`order:<id>` / `orders:index`), and the durable order-log append. -/
inductive Effect where
  | saveSession (s : Session)
  | writeOrder (payload : List (String × JVal))
  | appendOrderLog (payload : List (String × JVal))
deriving DecidableEq

/-- The value of one `handle_utterance` call: the reply messages, the
`next` state of the returned dict, and the store writes performed during
the turn, in order. -/
structure TurnResult where
  messages : List Msg
  next : String
  effects : List Effect
deriving DecidableEq

/-- The process-wide inputs a turn reads: the loaded menu, the overrides
store content, the time of day, the customer CSV, and the delivery
config.  All are configuration or external state; the two source files
read them but do not define their content. -/
structure Env where
  menu : List MenuItem
  read : StoreRead
  nowSec : Nat
  csvExists : Bool
  csvRows : List CsvRow
  sla : SLA
  zones : List Zone

/-- The local helper `out(msgs, nxt)`: set the state, save the session,
and return the reply. -/
def mkOut (s : Session) (msgs : List Msg) (nxt : String) : TurnResult :=
  { messages := msgs, next := nxt, effects := [Effect.saveSession { s with state := nxt }] }

/-- The explicit-start phrases checked before the state dispatch
(src/conversation_flow.py line 320). -/
def startPhrases : List String :=
  ["ik wil bestellen", "bestelling plaatsen", "mag ik wat bestellen"]

/-- The `ask_items`/`collecting` block (src/conversation_flow.py lines
324-337): parse items; a pizza mention without a concrete match re-asks;
parsed items are appended (session saved, then saved again by `out`);
otherwise re-ask.  Note the basket is appended to and the stored `total`
is NOT recomputed here. -/
def handleAskItems (env : Env) (s : Session) (utt_norm : String) : TurnResult :=
  let items := _parse_items env.menu utt_norm
  if items.isEmpty ∧ pizzaMention utt_norm then
    mkOut s [Msg.askPizzaWhich] "ask_items"
  else if items.isEmpty = false then
    let s1 := { s with items := s.items ++ items }
    let last := items.getLastD { code := "", name := "", price := 0, qty := 0 }
    { messages := [Msg.itemAdded last.qty last.name, Msg.askItemsMore]
      next := "confirm_more"
      effects := [Effect.saveSession s1, Effect.saveSession { s1 with state := "confirm_more" }] }
  else mkOut s [Msg.askItems] "ask_items"

/-- The `confirm_more` block (src/conversation_flow.py lines 340-352):
yes-words go back to `ask_items`; no-words recompute the stored total and
move to `confirm_summary`; otherwise a late item mention is appended, or
the more-prompt repeats. -/
def handleConfirmMore (env : Env) (s : Session) (utt_norm : String) : TurnResult :=
  if containsAny utt_norm ["ja", "nog", "meer", "toevoegen"] then
    mkOut s [Msg.askItems] "ask_items"
  else if containsAny utt_norm ["nee", "dat is alles", "klaar", "niets"] then
    let s1 := { s with total := _total s.items }
    { messages := [Msg.confirmItems (_items_text s1.items), Msg.askItemsConfirmOk]
      next := "confirm_summary"
      effects := [Effect.saveSession s1,
        Effect.saveSession { s1 with state := "confirm_summary" }] }
  else
    let items := _parse_items env.menu utt_norm
    if items.isEmpty = false then
      let s1 := { s with items := s.items ++ items }
      let last := items.getLastD { code := "", name := "", price := 0, qty := 0 }
      { messages := [Msg.itemAdded last.qty last.name, Msg.askItemsMore]
        next := "confirm_more"
        effects := [Effect.saveSession s1,
          Effect.saveSession { s1 with state := "confirm_more" }] }
    else mkOut s [Msg.askItemsMore] "confirm_more"

/-- The `confirm_summary` block (src/conversation_flow.py lines 355-361):
yes speaks the stored total (rounded to whole euros) and moves to
`fulfilment`; no goes back to `ask_items` WITHOUT touching the basket;
otherwise the confirmation prompt repeats. -/
def handleConfirmSummary (s : Session) (utt_norm : String) : TurnResult :=
  if containsAny utt_norm ["ja", "klopt", "correct"] then
    mkOut s [Msg.totalAfterConfirm (round s.total), Msg.askFulfilment] "fulfilment"
  else if containsAny utt_norm ["nee", "klopt niet", "anders"] then
    mkOut s [Msg.askItems] "ask_items"
  else mkOut s [Msg.askItemsConfirmOk] "confirm_summary"

/-- The `fulfilment` block (src/conversation_flow.py lines 364-372):
pickup computes the ETA and ends WITHOUT saving the session; delivery asks
for the phone number; otherwise the prompt repeats. -/
def handleFulfilment (env : Env) (s : Session) (utt_norm : String) : TurnResult :=
  if containsAny utt_norm ["afhaal", "afhalen", "ophalen"] then
    let st := runtime_status env.read env.nowSec
    let mins := _eta_minutes env.sla "pickup" st.delay_pasta_minutes st.delay_schotels_minutes
    { messages := [Msg.pickupEta (readyHM env.nowSec mins), Msg.closingPickup]
      next := "end", effects := [] }
  else if containsAny utt_norm ["bezorg", "bezorgen", "thuis"] then
    mkOut s [Msg.askPhoneForDelivery] "phone"
  else mkOut s [Msg.askFulfilment] "fulfilment"

/-- The `phone` block (src/conversation_flow.py lines 375-400): store the
digit string of the utterance as `customer.tel` (no `31 → 0` rewriting
occurs in this code), look it up in the CSV, and confirm the found address
or fall through to `address`. -/
def handlePhone (env : Env) (s : Session) (utt : String) : TurnResult :=
  let tel := digitsOf utt
  let s1 := { s with customer := { s.customer with tel := some tel } }
  match csvLookup env.csvExists env.csvRows tel with
  | some f =>
    if f.straat ≠ "" ∨ f.postcode ≠ "" then
      let s2 := { s1 with customer := updFound s1.customer f }
      { messages := [Msg.confirmLookupFound f.straat f.huisnr f.postcode]
        next := "crm_confirm"
        effects := [Effect.saveSession s2, Effect.saveSession { s2 with state := "crm_confirm" }] }
    else mkOut s1 [Msg.confirmLookupMissing] "address"
  | none => mkOut s1 [Msg.confirmLookupMissing] "address"

/-- The `crm_confirm` block (src/conversation_flow.py lines 403-415): yes
finalises the delivery (ETA, total with fee, closing) and ends WITHOUT any
store write; no falls through to `address`; otherwise the found address is
repeated. -/
def handleCrmConfirm (env : Env) (s : Session) (utt_norm : String) : TurnResult :=
  if containsAny utt_norm ["ja", "klopt", "correct"] then
    let st := runtime_status env.read env.nowSec
    let mins := _eta_minutes env.sla "delivery" st.delay_pasta_minutes st.delay_schotels_minutes
    let tot := _total s.items
    let fee := _delivery_fee env.zones (s.customer.postcode.getD "")
    { messages := [Msg.deliveryEta (readyHM env.nowSec mins),
                   Msg.totalAfterConfirm (round (tot + fee)), Msg.closingDelivery]
      next := "end", effects := [] }
  else if containsAny utt_norm ["nee", "klopt niet", "anders"] then
    mkOut s [Msg.confirmLookupMissing] "address"
  else
    mkOut s [Msg.confirmLookupFound (s.customer.straat.getD "") (s.customer.huisnr.getD "")
      (s.customer.postcode.getD "")] "crm_confirm"

/-- The `address` block (src/conversation_flow.py lines 418-432): extract
postcode/house number, save the session (state still `address`), then
either finalise the delivery (same messages as `crm_confirm` yes, ending
with no further write) or re-ask (saving again through `out`). -/
def handleAddress (env : Env) (s : Session) (utt : String) : TurnResult :=
  let s1 := { s with customer := addrCustomer s.customer utt }
  if truthyS s1.customer.postcode ∧ truthyS s1.customer.huisnr then
    let st := runtime_status env.read env.nowSec
    let mins := _eta_minutes env.sla "delivery" st.delay_pasta_minutes st.delay_schotels_minutes
    let tot := _total s1.items
    let fee := _delivery_fee env.zones (s1.customer.postcode.getD "")
    { messages := [Msg.deliveryEta (readyHM env.nowSec mins),
                   Msg.totalAfterConfirm (round (tot + fee)), Msg.closingDelivery]
      next := "end", effects := [Effect.saveSession s1] }
  else
    { messages := [Msg.askPostcodeHouse], next := "address"
      effects := [Effect.saveSession s1, Effect.saveSession { s1 with state := "address" }] }

/-- `FlowManager.handle_utterance` (src/conversation_flow.py lines
306-435): the session read from the store is `s`, the raw utterance
`speech`.  After lowering/stripping and normalising, the `greet` state
short-circuits, then the explicit-start phrases, then the per-state
blocks; unknown states reply with the fallback prompt and return
`next="ask_items"` without saving. -/
def handle_utterance (env : Env) (s : Session) (speech : String) : TurnResult :=
  let utt := pyLower (pyStrip speech)
  let utt_norm := _norm_txt utt
  if s.state = "greet" then mkOut s [Msg.askItems] "ask_items"
  else if containsAny utt_norm startPhrases then mkOut s [Msg.replyStartOrder] "ask_items"
  else if s.state = "ask_items" ∨ s.state = "collecting" then handleAskItems env s utt_norm
  else if s.state = "confirm_more" then handleConfirmMore env s utt_norm
  else if s.state = "confirm_summary" then handleConfirmSummary s utt_norm
  else if s.state = "fulfilment" then handleFulfilment env s utt_norm
  else if s.state = "phone" then handlePhone env s utt
  else if s.state = "crm_confirm" then handleCrmConfirm env s utt_norm
  else if s.state = "address" then handleAddress env s utt
  else { messages := [Msg.fallback1], next := "ask_items", effects := [] }

/-- `order_submit`, `POST /order/submit` (src/app.py lines 551-573): the
only place that writes `Order` records.  An unparseable body gives 400
(`none`); otherwise the payload is stamped with `order_id`/`created_at`
and written to the keyed store (7-day TTL plus the `orders:index` hash)
and appended to the durable order log, both best-effort. -/
def order_submit (bodyOpt : Option (List (String × JVal))) (order_id created_at : String) :
    Option (List (String × JVal)) × List Effect :=
  match bodyOpt with
  | none => (none, [])
  | some payload =>
    let payload1 := setKV (setKV payload "order_id" (.js order_id)) "created_at" (.js created_at)
    (some payload1, [Effect.writeOrder payload1, Effect.appendOrderLog payload1])

-- ---------------------------------------------------------------------
-- Concrete instances used by witnesses and counterexamples
-- ---------------------------------------------------------------------

/-- A one-item menu (a margherita at 10 euros) for concrete runs. -/
def menuW : List MenuItem := [mkMenuItem "margherita" "Margherita" 10]

/-- A concrete environment: the one-item menu, no overrides, 19:00, no
customer CSV, the baseline SLA, no delivery zones. -/
def envW : Env :=
  { menu := menuW, read := .absent, nowSec := 68400, csvExists := false,
    csvRows := [],
    sla := { pickup_minutes := 15, pickup_combo_minutes := 30, delivery_minutes := 60 },
    zones := [] }

/-- A session awaiting the summary confirmation, holding two margheritas. -/
def sessCS : Session :=
  { state := "confirm_summary",
    items := [{ code := "margherita", name := "Margherita", price := 10, qty := 2 }],
    total := 20, fulfilment := none, customer := {}, payment := none }

/-- A fresh session in the `ask_items` state. -/
def sessAI : Session := { defaultSession with state := "ask_items" }

/-- `sessAI` after the turn that adds two margheritas (note the stored
total is still the default 0). -/
def sessAdded : Session :=
  { sessAI with
    items := [{ code := "margherita", name := "Margherita", price := 10, qty := 2 }] }

/-- `sessAdded` moved on to the `confirm_more` state. -/
def sessCM : Session := { sessAdded with state := "confirm_more" }

/-- A fresh session in the `phone` state. -/
def sessPhone : Session := { defaultSession with state := "phone" }

/-- A session awaiting the CRM address confirmation, with a resolved
customer record and two margheritas. -/
def sessCRM : Session :=
  { state := "crm_confirm",
    items := [{ code := "margherita", name := "Margherita", price := 10, qty := 2 }],
    total := 20, fulfilment := none,
    customer := { tel := some "0612345678", postcode := some "1234AB",
                  straat := some "Dorpsstraat", huisnr := some "1" },
    payment := none }

/-- Whether an effect is a session-store write (as opposed to one of the
order writes only `order_submit` performs). -/
def isSessionSave : Effect → Bool
  | .saveSession _ => true
  | _ => false
-- ---------------------------------------------------------------------
-- Association-list lemmas for the dict operations
-- ---------------------------------------------------------------------

/-- One lookup step past a head entry with a different key. -/
theorem lookup_cons_of_ne (k k' : String) (v : JVal) (l : List (String × JVal))
    (h : (k == k') = false) : List.lookup k ((k', v) :: l) = List.lookup k l := by
  simp [List.lookup, h]

/-- `setKV` makes the assigned key map to the assigned value. -/
theorem lookup_setKV_self (l : List (String × JVal)) (k : String) (v : JVal) :
    (setKV l k v).lookup k = some v := by
  induction l with
  | nil => simp [setKV, List.lookup]
  | cons kv rest ih =>
    by_cases h : kv.1 = k
    · simp [setKV, h, List.lookup]
    · obtain ⟨k1, v1⟩ := kv
      simp only [setKV, if_neg h]
      rw [lookup_cons_of_ne _ _ _ _ (beq_eq_false_iff_ne.mpr (fun he => h he.symm))]
      exact ih

/-- `setKV` on a different key leaves a lookup unchanged. -/
theorem lookup_setKV_ne (l : List (String × JVal)) (k k' : String) (v : JVal)
    (h : k ≠ k') : (setKV l k' v).lookup k = l.lookup k := by
  induction l with
  | nil =>
    simp only [setKV, List.lookup]
    rw [beq_eq_false_iff_ne.mpr h]
  | cons kv rest ih =>
    obtain ⟨k1, v1⟩ := kv
    by_cases h1 : k1 = k'
    · subst h1
      have e : setKV ((k1, v1) :: rest) k1 v = (k1, v) :: rest := by
        simp [setKV]
      rw [e, lookup_cons_of_ne _ _ _ _ (beq_eq_false_iff_ne.mpr h),
        lookup_cons_of_ne _ _ _ _ (beq_eq_false_iff_ne.mpr h)]
    · simp only [setKV, if_neg h1]
      by_cases h2 : k = k1
      · subst h2
        simp [List.lookup]
      · rw [lookup_cons_of_ne _ _ _ _ (beq_eq_false_iff_ne.mpr h2),
          lookup_cons_of_ne _ _ _ _ (beq_eq_false_iff_ne.mpr h2)]
        exact ih

/-- Looking up a key of a distinct-key association list after mapping a
value transformation over it finds the transformed original entry. -/
theorem lookup_map_of_mem (L : List (String × JVal)) (f : String × JVal → JVal)
    (k : String) (d : JVal) (hmem : (k, d) ∈ L) (hnd : (L.map Prod.fst).Nodup) :
    (L.map (fun kv => (kv.1, f kv))).lookup k = some (f (k, d)) := by
  induction L with
  | nil => simp at hmem
  | cons kv rest ih =>
    obtain ⟨k1, v1⟩ := kv
    simp only [List.map_cons, List.nodup_cons, List.mem_map] at hnd
    rcases List.mem_cons.mp hmem with he | hrest
    · obtain ⟨rfl, rfl⟩ : k1 = k ∧ v1 = d := by
        have := he
        simp only [Prod.mk.injEq] at this
        exact ⟨this.1.symm, this.2.symm⟩
      simp [List.lookup]
    · have hk : k ≠ k1 := by
        rintro rfl
        exact hnd.1 ⟨(k, d), hrest, rfl⟩
      simp only [List.map_cons]
      rw [lookup_cons_of_ne _ _ _ _ (beq_eq_false_iff_ne.mpr hk)]
      exact ih hrest hnd.2

/-- `save_overrides` always produces a record whose `delay_pasta_minutes`
entry is the request's value (default 0 when the key is absent). -/
theorem save_overrides_lookup_delay (b : List (String × JVal)) :
    (save_overrides b).lookup "delay_pasta_minutes" =
      some ((b.lookup "delay_pasta_minutes").getD (JVal.jn 0)) :=
  lookup_map_of_mem DEFAULT_OVERRIDES (fun kv => (b.lookup kv.1).getD kv.2)
    "delay_pasta_minutes" (JVal.jn 0) (by decide) (by decide)

/-- `nearestAllowed` always lands in the allowed set. -/
theorem nearestAllowed_mem (n : Int) : nearestAllowed n ∈ allowedDelays := by
  unfold nearestAllowed allowedDelays
  simp only [List.foldl]
  split_ifs <;> simp

-- ---------------------------------------------------------------------
-- C1
-- ---------------------------------------------------------------------

/-- C1, counterexample.  The claim states that whenever the status is open,
`delivery_enabled` is the CONJUNCTION of the automatic delivery window with
the `delivery_enabled` override when set.  At 10:00 (seconds 36000) with
`is_open_override="open"` and the `delivery_enabled` override set to true,
the code yields `mode="open"` and `delivery_enabled=true` although the
automatic window is false at 10:00 — so the claimed conjunction (false)
disagrees with the computed flag (true): src/app.py line 185 combines the
override and the window with `or`, not `and`. -/
theorem C1_counterexample :
    (evaluate_status
        (.val [("is_open_override", JVal.js "open"), ("delivery_enabled", JVal.jb true)])
        36000).mode = "open" ∧
    (evaluate_status
        (.val [("is_open_override", JVal.js "open"), ("delivery_enabled", JVal.jb true)])
        36000).delivery_enabled = true ∧
    (_auto 36000).delivery_window = false := by
  decide

/-- C1, amended.  For every evaluation instant at which the runtime status
is open, `delivery_enabled` equals the DISJUNCTION of the truthiness of the
stored `delivery_enabled` override (default false) with the automatic
delivery window (17:00 ≤ t < 21:30 within opening hours); in particular,
with `is_open_override="open"` at 10:00 and no `delivery_enabled` override
set, the evaluated status has `mode="open"` and `delivery_enabled=false`. -/
theorem C1_amended (read : StoreRead) (t : Nat)
    (h : (evaluate_status read t).mode = "open") :
    (evaluate_status read t).delivery_enabled =
      (truthyO ((load_overrides read).lookup "delivery_enabled")
        || (_auto t).delivery_window) := by
  have h' : statusMode (load_overrides read) t = "open" := h
  show statusDelivery (load_overrides read) t = _
  unfold statusDelivery
  rw [h']
  simp

/-- C1, witness: the amended statement applied at 19:00 with no overrides. -/
theorem C1_witness :
    (evaluate_status .absent 68400).mode = "open" ∧
    (evaluate_status .absent 68400).delivery_enabled =
      (truthyO ((load_overrides .absent).lookup "delivery_enabled")
        || (_auto 68400).delivery_window) :=
  ⟨by decide, C1_amended .absent 68400 (by decide)⟩

-- ---------------------------------------------------------------------
-- C2
-- ---------------------------------------------------------------------

/-- C2, counterexample.  The claim states that an admin POST with
`delay_pasta_minutes ∉ {0,10,20,30,45,60}` yields a 4xx response and
leaves the stored overrides unchanged.  For the body
`{"delay_pasta_minutes": 17}` the endpoint instead returns 200 OK, snaps
the value to the nearest allowed value 20, and writes the merged record
(which differs from the defaults) to the store. -/
theorem C2_counterexample :
    isBadRequest (admin_toggles (some [("delay_pasta_minutes", JVal.jn 17)])).1 = false ∧
    (admin_toggles (some [("delay_pasta_minutes", JVal.jn 17)])).2 =
      some [("bot_enabled", JVal.jb true), ("pasta_available", JVal.jb true),
            ("delay_pasta_minutes", JVal.jn 20), ("delay_schotels_minutes", JVal.jn 0),
            ("is_open_override", JVal.js "auto"), ("delivery_enabled", JVal.jb false)] ∧
    (admin_toggles (some [("delay_pasta_minutes", JVal.jn 17)])).2 ≠
      some DEFAULT_OVERRIDES := by
  decide

/-- C2, amended.  For every admin POST whose body parses as JSON, the
response is 200 OK (never 4xx) and the record written to the store carries
a `delay_pasta_minutes` that lies in {0,10,20,30,45,60}: out-of-range
values are snapped to the nearest allowed value rather than rejected; the
only 400 is for unparseable JSON. -/
theorem C2_amended (body : List (String × JVal)) :
    isBadRequest (admin_toggles (some body)).1 = false ∧
    ∃ n, n ∈ allowedDelays ∧
      ((admin_toggles (some body)).2.bind fun l => l.lookup "delay_pasta_minutes") =
        some (JVal.jn n) := by
  refine ⟨rfl, _norm_delay ((adminBody1 body).lookup "delay_pasta_minutes"),
    nearestAllowed_mem _, ?_⟩
  show (some (save_overrides (adminBody3 body))).bind
      (fun l => l.lookup "delay_pasta_minutes") = _
  simp only [Option.bind]
  rw [save_overrides_lookup_delay]
  unfold adminBody3
  rw [lookup_setKV_ne _ _ _ _ (by decide), lookup_setKV_self]
  rfl

-- ---------------------------------------------------------------------
-- C3
-- ---------------------------------------------------------------------

/-- C3, counterexample.  The claim states that any overrides record with
`kitchen_closed=true` forces a closed status with both channels disabled.
But neither source file has a `kitchen_closed` key at all: the loader drops
it, so at 19:00 a stored record `{"kitchen_closed": true}` still evaluates
to `mode="open"` with `delivery_enabled=true`. -/
theorem C3_counterexample :
    (evaluate_status (.val [("kitchen_closed", JVal.jb true)]) 68400).mode = "open" ∧
    (evaluate_status (.val [("kitchen_closed", JVal.jb true)]) 68400).delivery_enabled
      = true := by
  decide

/-- C3, amended.  `kitchen_closed` is not one of the six override keys this
code knows; the loader silently drops it, so adding `kitchen_closed` (with
any value) to a stored record leaves the evaluated runtime status entirely
unchanged — the status record does not even carry `kitchen_closed` or
`pickup_enabled` fields. -/
theorem C3_amended (v : JVal) (data : List (String × JVal)) (t : Nat) :
    evaluate_status (.val (("kitchen_closed", v) :: data)) t
      = evaluate_status (.val data) t := by
  have e : load_overrides (.val (("kitchen_closed", v) :: data))
      = load_overrides (.val data) := by
    unfold load_overrides DEFAULT_OVERRIDES
    simp only [List.map]
    rw [lookup_cons_of_ne "bot_enabled" "kitchen_closed" v data (by decide),
      lookup_cons_of_ne "pasta_available" "kitchen_closed" v data (by decide),
      lookup_cons_of_ne "delay_pasta_minutes" "kitchen_closed" v data (by decide),
      lookup_cons_of_ne "delay_schotels_minutes" "kitchen_closed" v data (by decide),
      lookup_cons_of_ne "is_open_override" "kitchen_closed" v data (by decide),
      lookup_cons_of_ne "delivery_enabled" "kitchen_closed" v data (by decide)]
  unfold evaluate_status
  rw [e]

-- ---------------------------------------------------------------------
-- C7
-- ---------------------------------------------------------------------

/-- C7: the boundary behaviour with no overrides.  15:59:59 (57599 s) is
closed, 16:00:00 (57600 s) open, 21:29:59 (77399 s) has delivery enabled,
21:30:00 (77400 s) has delivery disabled, 21:59:59 (79199 s) is still open,
and 22:00:00 (79200 s) is closed.  The status record carries no separate
pickup flag: pickup is available exactly when the status is open (the
webhook short-circuits every call when closed and the `fulfilment` state
accepts pickup unconditionally), so "pickup enabled at 21:59:59" is the
`mode="open"` conjunct. -/
theorem C7_boundaries :
    (evaluate_status .absent 57599).mode = "closed" ∧
    (evaluate_status .absent 57600).mode = "open" ∧
    (evaluate_status .absent 77399).delivery_enabled = true ∧
    (evaluate_status .absent 77400).delivery_enabled = false ∧
    (evaluate_status .absent 79199).mode = "open" ∧
    (evaluate_status .absent 79200).mode = "closed" := by
  decide

-- ---------------------------------------------------------------------
-- C9
-- ---------------------------------------------------------------------

/-- C9: every record produced by the overrides loader has exactly the six
default keys in order; a known key takes the stored value when present and
its default otherwise (so unknown stored keys are dropped); and a store or
parse error, or an absent record, yields the full default record. -/
theorem C9_loader_shape :
    (∀ read, (load_overrides read).map Prod.fst = DEFAULT_OVERRIDES.map Prod.fst) ∧
    (∀ data k d, (k, d) ∈ DEFAULT_OVERRIDES →
      (load_overrides (.val data)).lookup k = some ((data.lookup k).getD d)) ∧
    load_overrides .err = DEFAULT_OVERRIDES ∧
    load_overrides .absent = DEFAULT_OVERRIDES := by
  refine ⟨?_, ?_, rfl, rfl⟩
  · intro read
    cases read <;> simp [load_overrides]
  · intro data k d hmem
    exact lookup_map_of_mem DEFAULT_OVERRIDES
      (fun kv => (data.lookup kv.1).getD kv.2) k d hmem (by decide)

/-- C9, witness: a stored record with an unknown key and one known key. -/
theorem C9_witness :
    (load_overrides (.val [("kitchen_closed", JVal.jb true),
        ("delay_pasta_minutes", JVal.jn 45)])).lookup "delay_pasta_minutes" =
      some ((([("kitchen_closed", JVal.jb true),
        ("delay_pasta_minutes", JVal.jn 45)]).lookup "delay_pasta_minutes").getD
          (JVal.jn 0)) :=
  C9_loader_shape.2.1 _ "delay_pasta_minutes" (JVal.jn 0) (by decide)


/-- Dispatch: a `confirm_more` session without a start phrase runs the
`confirm_more` block. -/
theorem dispatch_confirm_more (env : Env) (s : Session) (speech : String)
    (hst : s.state = "confirm_more")
    (hstart : containsAny (_norm_txt (pyLower (pyStrip speech))) startPhrases = false) :
    handle_utterance env s speech
      = handleConfirmMore env s (_norm_txt (pyLower (pyStrip speech))) := by
  simp only [handle_utterance, hst, hstart]
  simp

/-- Dispatch: a `confirm_summary` session without a start phrase runs the
`confirm_summary` block. -/
theorem dispatch_confirm_summary (env : Env) (s : Session) (speech : String)
    (hst : s.state = "confirm_summary")
    (hstart : containsAny (_norm_txt (pyLower (pyStrip speech))) startPhrases = false) :
    handle_utterance env s speech
      = handleConfirmSummary s (_norm_txt (pyLower (pyStrip speech))) := by
  simp only [handle_utterance, hst, hstart]
  simp

/-- Dispatch: a `phone` session without a start phrase runs the `phone`
block on the lowered, stripped utterance. -/
theorem dispatch_phone (env : Env) (s : Session) (speech : String)
    (hst : s.state = "phone")
    (hstart : containsAny (_norm_txt (pyLower (pyStrip speech))) startPhrases = false) :
    handle_utterance env s speech = handlePhone env s (pyLower (pyStrip speech)) := by
  simp only [handle_utterance, hst, hstart]
  simp

/-- Dispatch: a `crm_confirm` session without a start phrase runs the
`crm_confirm` block. -/
theorem dispatch_crm_confirm (env : Env) (s : Session) (speech : String)
    (hst : s.state = "crm_confirm")
    (hstart : containsAny (_norm_txt (pyLower (pyStrip speech))) startPhrases = false) :
    handle_utterance env s speech
      = handleCrmConfirm env s (_norm_txt (pyLower (pyStrip speech))) := by
  simp only [handle_utterance, hst, hstart]
  simp

/-- Dispatch: an `address` session without a start phrase runs the
`address` block on the lowered, stripped utterance. -/
theorem dispatch_address (env : Env) (s : Session) (speech : String)
    (hst : s.state = "address")
    (hstart : containsAny (_norm_txt (pyLower (pyStrip speech))) startPhrases = false) :
    handle_utterance env s speech = handleAddress env s (pyLower (pyStrip speech)) := by
  simp only [handle_utterance, hst, hstart]
  simp

/-- Sessions saved by the `ask_items` block are never in state `end`, and
on an `end` turn the saved state is the prior state (vacuous here: this
block never ends the call). -/
theorem saves_handleAskItems (env : Env) (s : Session) (u : String) (s' : Session)
    (hs : s.state ≠ "end")
    (h : Effect.saveSession s' ∈ (handleAskItems env s u).effects) :
    s'.state ≠ "end" ∧ ((handleAskItems env s u).next = "end" → s'.state = s.state) := by
  simp only [handleAskItems, mkOut] at h ⊢
  split_ifs at h ⊢ <;>
    simp only [List.mem_cons, List.not_mem_nil, or_false, Effect.saveSession.injEq] at h <;>
    (rcases h with rfl | rfl <;> simp [hs])

/-- As `saves_handleAskItems`, for the `confirm_more` block. -/
theorem saves_handleConfirmMore (env : Env) (s : Session) (u : String) (s' : Session)
    (hs : s.state ≠ "end")
    (h : Effect.saveSession s' ∈ (handleConfirmMore env s u).effects) :
    s'.state ≠ "end" ∧ ((handleConfirmMore env s u).next = "end" → s'.state = s.state) := by
  simp only [handleConfirmMore, mkOut] at h ⊢
  split_ifs at h ⊢ <;>
    simp only [List.mem_cons, List.not_mem_nil, or_false, Effect.saveSession.injEq] at h <;>
    (rcases h with rfl | rfl <;> simp [hs])

/-- As `saves_handleAskItems`, for the `confirm_summary` block. -/
theorem saves_handleConfirmSummary (s : Session) (u : String) (s' : Session)
    (hs : s.state ≠ "end")
    (h : Effect.saveSession s' ∈ (handleConfirmSummary s u).effects) :
    s'.state ≠ "end" ∧ ((handleConfirmSummary s u).next = "end" → s'.state = s.state) := by
  simp only [handleConfirmSummary, mkOut] at h ⊢
  split_ifs at h ⊢ <;>
    simp only [List.mem_cons, List.not_mem_nil, or_false, Effect.saveSession.injEq] at h <;>
    (rcases h with rfl | rfl <;> simp [hs])

/-- As `saves_handleAskItems`, for the `fulfilment` block: the pickup
finalisation performs no session write at all. -/
theorem saves_handleFulfilment (env : Env) (s : Session) (u : String) (s' : Session)
    (hs : s.state ≠ "end")
    (h : Effect.saveSession s' ∈ (handleFulfilment env s u).effects) :
    s'.state ≠ "end" ∧ ((handleFulfilment env s u).next = "end" → s'.state = s.state) := by
  simp only [handleFulfilment, mkOut] at h ⊢
  split_ifs at h ⊢ <;>
    simp only [List.mem_cons, List.not_mem_nil, or_false, Effect.saveSession.injEq] at h <;>
    (rcases h with rfl | rfl <;> simp [hs])

/-- As `saves_handleAskItems`, for the `phone` block. -/
theorem saves_handlePhone (env : Env) (s : Session) (u : String) (s' : Session)
    (hs : s.state ≠ "end")
    (h : Effect.saveSession s' ∈ (handlePhone env s u).effects) :
    s'.state ≠ "end" ∧ ((handlePhone env s u).next = "end" → s'.state = s.state) := by
  simp only [handlePhone, mkOut] at h ⊢
  cases hc : csvLookup env.csvExists env.csvRows (digitsOf u) with
  | none =>
    simp only [hc] at h ⊢
    simp only [List.mem_cons, List.not_mem_nil, or_false, Effect.saveSession.injEq] at h
    subst h
    simp
  | some f =>
    simp only [hc] at h ⊢
    split_ifs at h ⊢ <;>
      simp only [List.mem_cons, List.not_mem_nil, or_false, Effect.saveSession.injEq] at h <;>
      (rcases h with rfl | rfl <;> simp [hs])

/-- As `saves_handleAskItems`, for the `crm_confirm` block: the delivery
finalisation performs no session write at all. -/
theorem saves_handleCrmConfirm (env : Env) (s : Session) (u : String) (s' : Session)
    (hs : s.state ≠ "end")
    (h : Effect.saveSession s' ∈ (handleCrmConfirm env s u).effects) :
    s'.state ≠ "end" ∧ ((handleCrmConfirm env s u).next = "end" → s'.state = s.state) := by
  simp only [handleCrmConfirm, mkOut] at h ⊢
  split_ifs at h ⊢ <;>
    simp only [List.mem_cons, List.not_mem_nil, or_false, Effect.saveSession.injEq] at h <;>
    (rcases h with rfl | rfl <;> simp [hs])

/-- As `saves_handleAskItems`, for the `address` block: the finalising
branch saves only the session updated with the address, state unchanged. -/
theorem saves_handleAddress (env : Env) (s : Session) (u : String) (s' : Session)
    (hs : s.state ≠ "end")
    (h : Effect.saveSession s' ∈ (handleAddress env s u).effects) :
    s'.state ≠ "end" ∧ ((handleAddress env s u).next = "end" → s'.state = s.state) := by
  simp only [handleAddress, mkOut] at h ⊢
  split_ifs at h ⊢ <;>
    simp only [List.mem_cons, List.not_mem_nil, or_false, Effect.saveSession.injEq] at h <;>
    (rcases h with rfl | rfl <;> simp [hs])


set_option maxHeartbeats 2000000 in
/-- C10: for every DSM turn, the session store never receives a record
whose state field is `end` (the three finalising branches either write
nothing — pickup in `fulfilment`, yes in `crm_confirm` — or write the
address-updated session with its state unchanged), so after a turn that
returned `next="end"`, a subsequent utterance on the same call re-enters
the state the session held before the final turn. -/
theorem C10_no_end_saved (env : Env) (s : Session) (speech : String) (s' : Session)
    (h : Effect.saveSession s' ∈ (handle_utterance env s speech).effects) :
    s'.state ≠ "end" ∧
    ((handle_utterance env s speech).next = "end" → s'.state = s.state) := by
  simp only [handle_utterance] at h ⊢
  split_ifs at h ⊢ with h1 h2 h3 h4 h5 h6 h7 h8 h9
  · simp only [mkOut, List.mem_cons, List.not_mem_nil, or_false,
      Effect.saveSession.injEq] at h
    subst h
    simp [mkOut]
  · simp only [mkOut, List.mem_cons, List.not_mem_nil, or_false,
      Effect.saveSession.injEq] at h
    subst h
    simp [mkOut]
  · exact saves_handleAskItems env s _ s'
      (by rcases h3 with h3 | h3 <;> simp [h3]) h
  · exact saves_handleConfirmMore env s _ s' (by simp [h4]) h
  · exact saves_handleConfirmSummary s _ s' (by simp [h5]) h
  · exact saves_handleFulfilment env s _ s' (by simp [h6]) h
  · exact saves_handlePhone env s _ s' (by simp [h7]) h
  · exact saves_handleCrmConfirm env s _ s' (by simp [h8]) h
  · exact saves_handleAddress env s _ s' (by simp [h9]) h
  · simp at h

/-- C10, witness: the greet turn saves a session in state `ask_items`. -/
theorem C10_witness :
    ({ defaultSession with state := "ask_items" } : Session).state ≠ "end" ∧
    ((handle_utterance envW defaultSession "").next = "end" →
      ({ defaultSession with state := "ask_items" } : Session).state
        = defaultSession.state) :=
  C10_no_end_saved envW defaultSession "" _ (by decide)

-- ---------------------------------------------------------------------
-- C4
-- ---------------------------------------------------------------------

/-- C4, counterexample.  The claim states that a no-answer in
`confirm_summary` resets the basket to `items=[]`, `total=0`.  With two
margheritas in the basket, answering "nee" replies with the ask-items
prompt and moves to `ask_items`, but the one session written still holds
the two items and the total of 20: the code has no reset
(src/conversation_flow.py lines 359-360). -/
theorem C4_counterexample :
    (handle_utterance envW sessCS "nee").messages = [Msg.askItems] ∧
    (handle_utterance envW sessCS "nee").next = "ask_items" ∧
    (handle_utterance envW sessCS "nee").effects =
      [Effect.saveSession { sessCS with state := "ask_items" }] ∧
    ({ sessCS with state := "ask_items" } : Session).items ≠ [] ∧
    ({ sessCS with state := "ask_items" } : Session).total ≠ 0 := by
  refine ⟨?_, ?_, ?_, ?_, ?_⟩ <;> decide

/-- C4, amended.  A no-answer in `confirm_summary` (no yes-word, a
no-word, no explicit-start phrase) replies with the ask-items prompt and
moves the stored session to state `ask_items`, but the basket is RETAINED:
the one session written keeps the prior `items` and `total` unchanged. -/
theorem C4_amended (env : Env) (s : Session) (speech : String)
    (hst : s.state = "confirm_summary")
    (hstart : containsAny (_norm_txt (pyLower (pyStrip speech))) startPhrases = false)
    (hyes : containsAny (_norm_txt (pyLower (pyStrip speech)))
      ["ja", "klopt", "correct"] = false)
    (hno : containsAny (_norm_txt (pyLower (pyStrip speech)))
      ["nee", "klopt niet", "anders"] = true) :
    handle_utterance env s speech =
      { messages := [Msg.askItems], next := "ask_items",
        effects := [Effect.saveSession { s with state := "ask_items" }] } := by
  rw [dispatch_confirm_summary env s speech hst hstart]
  simp [handleConfirmSummary, hyes, hno, mkOut]

/-- C4, witness: the amended statement at the concrete two-item session. -/
theorem C4_witness :
    handle_utterance envW sessCS "nee" =
      { messages := [Msg.askItems], next := "ask_items",
        effects := [Effect.saveSession { sessCS with state := "ask_items" }] } :=
  C4_amended envW sessCS "nee" rfl (by decide) (by decide) (by decide)

-- ---------------------------------------------------------------------
-- C5
-- ---------------------------------------------------------------------

/-- C5, counterexample.  The claim states that a delivery finalisation
turn writes an `Order` record (keyed record plus durable log append).  At
the concrete `crm_confirm` session, answering "ja" ends the call but the
turn performs NO store write at all — in particular no order write: the
only order-writing code is the separate `POST /order/submit` endpoint
(src/app.py lines 551-573), which `handle_utterance` never calls. -/
theorem C5_counterexample :
    (handle_utterance envW sessCRM "ja").next = "end" ∧
    (handle_utterance envW sessCRM "ja").effects = [] := by
  refine ⟨?_, ?_⟩ <;> decide

/-- C5, amended.  Every delivery finalisation turn (yes in `crm_confirm`,
or `address` once postcode and house number are both present after the
turn's extraction) replies with the delivery ETA, the total including the
delivery fee and the closing message, and returns `next="end"`; but NO
`Order` record is written by the DSM — the turn's only effects (if any)
are session-store writes.  Orders are persisted solely through the
separate `POST /order/submit` endpoint. -/
theorem C5_amended (env : Env) (s : Session) (speech : String)
    (hstart : containsAny (_norm_txt (pyLower (pyStrip speech))) startPhrases = false)
    (hcase :
      (s.state = "crm_confirm" ∧
        containsAny (_norm_txt (pyLower (pyStrip speech)))
          ["ja", "klopt", "correct"] = true)
      ∨ (s.state = "address" ∧
          truthyS (addrCustomer s.customer (pyLower (pyStrip speech))).postcode = true ∧
          truthyS (addrCustomer s.customer (pyLower (pyStrip speech))).huisnr = true)) :
    (handle_utterance env s speech).next = "end" ∧
    (∃ r a, (handle_utterance env s speech).messages =
      [Msg.deliveryEta r, Msg.totalAfterConfirm a, Msg.closingDelivery]) ∧
    (handle_utterance env s speech).effects.all isSessionSave = true := by
  rcases hcase with ⟨hst, hyes⟩ | ⟨hst, hpc, hhn⟩
  · rw [dispatch_crm_confirm env s speech hst hstart]
    simp [handleCrmConfirm, hyes, isSessionSave]
  · rw [dispatch_address env s speech hst hstart]
    simp [handleAddress, hpc, hhn, isSessionSave]

/-- C5, witness: the amended statement at the concrete `crm_confirm`
session answering "ja". -/
theorem C5_witness :
    (handle_utterance envW sessCRM "ja").next = "end" ∧
    (∃ r a, (handle_utterance envW sessCRM "ja").messages =
      [Msg.deliveryEta r, Msg.totalAfterConfirm a, Msg.closingDelivery]) ∧
    (handle_utterance envW sessCRM "ja").effects.all isSessionSave = true :=
  C5_amended envW sessCRM "ja" (by decide) (Or.inl ⟨rfl, by decide⟩)

-- ---------------------------------------------------------------------
-- C6
-- ---------------------------------------------------------------------

/-- Rounding to two decimals moves a rational by at most half a cent. -/
theorem round2_abs_le (x : ℚ) : |round2 x - x| ≤ 1 / 200 := by
  unfold round2
  have h : |((round (x * 100) : ℤ) : ℚ) - x * 100| ≤ 1 / 2 := by
    rw [abs_sub_comm]
    exact abs_sub_round (x * 100)
  have e : ((round (x * 100) : ℤ) : ℚ) / 100 - x
      = (((round (x * 100) : ℤ) : ℚ) - x * 100) / 100 := by ring
  rw [e, abs_div, abs_of_pos (show (0 : ℚ) < 100 by norm_num)]
  have h2 := (div_le_div_right (show (0 : ℚ) < 100 by norm_num)).mpr h
  exact h2.trans (by norm_num)

/-- C6, counterexample.  The claim states that after every session-store
write the stored total equals Σ qty·price over the stored items within
0.005 €.  The item-adding turn in `ask_items` appends the parsed items and
writes the session twice WITHOUT recomputing the total
(src/conversation_flow.py lines 331-335): parsing "2 margherita" into a
fresh session leaves `total = 0` while the item sum is 20. -/
theorem C6_counterexample :
    (handle_utterance envW sessAI "2 margherita").effects =
      [Effect.saveSession sessAdded,
       Effect.saveSession { sessAdded with state := "confirm_more" }] ∧
    ¬ (|sessAdded.total - itemsSum sessAdded.items| ≤ 1 / 200) := by
  constructor
  · decide
  · norm_num [sessAdded, sessAI, defaultSession, itemsSum]

/-- C6, amended.  The stored total matches the item sum only after the
turn that recomputes it: on a `confirm_more` turn answered with a no-word
(and no yes-word, no start phrase), both sessions written during the turn
satisfy `total = _total items` and hence lie within 0.005 € of
Σ qty·price; after item-adding turns the stored total simply retains its
previous value and carries no such guarantee. -/
theorem C6_amended (env : Env) (s : Session) (speech : String) (s' : Session)
    (hst : s.state = "confirm_more")
    (hstart : containsAny (_norm_txt (pyLower (pyStrip speech))) startPhrases = false)
    (hyes : containsAny (_norm_txt (pyLower (pyStrip speech)))
      ["ja", "nog", "meer", "toevoegen"] = false)
    (hno : containsAny (_norm_txt (pyLower (pyStrip speech)))
      ["nee", "dat is alles", "klaar", "niets"] = true)
    (h : Effect.saveSession s' ∈ (handle_utterance env s speech).effects) :
    s'.total = _total s'.items ∧ |s'.total - itemsSum s'.items| ≤ 1 / 200 := by
  rw [dispatch_confirm_more env s speech hst hstart] at h
  simp only [handleConfirmMore, hyes, hno] at h
  simp at h
  rcases h with rfl | rfl <;>
    refine ⟨rfl, ?_⟩ <;>
    · show |_total s.items - itemsSum s.items| ≤ 1 / 200
      exact round2_abs_le (itemsSum s.items)

/-- C6, witness: the amended statement at the concrete `confirm_more`
session holding two margheritas, answering "nee". -/
theorem C6_witness :
    ({ sessCM with total := _total sessCM.items } : Session).total =
      _total ({ sessCM with total := _total sessCM.items } : Session).items ∧
    |({ sessCM with total := _total sessCM.items } : Session).total -
      itemsSum ({ sessCM with total := _total sessCM.items } : Session).items| ≤ 1 / 200 :=
  C6_amended envW sessCM "nee" _ rfl (by decide) (by decide) (by decide) (by
    rw [dispatch_confirm_more envW sessCM "nee" rfl (by decide)]
    simp [handleConfirmMore,
      show containsAny (_norm_txt (pyLower (pyStrip "nee")))
        ["ja", "nog", "meer", "toevoegen"] = false from by decide,
      show containsAny (_norm_txt (pyLower (pyStrip "nee")))
        ["nee", "dat is alles", "klaar", "niets"] = true from by decide])

-- ---------------------------------------------------------------------
-- C8
-- ---------------------------------------------------------------------

/-- C8, counterexample.  The claim states that a digit string starting
with "31" of length ≥ 11 is stored with the leading "31" replaced by "0".
For the utterance "31612345678" (11 digits, starting with "31") the phone
turn stores the raw digit string unchanged: no `31 → 0` rewriting exists
in this code (src/conversation_flow.py line 376, src/app.py line 417). -/
theorem C8_counterexample :
    (handle_utterance envW sessPhone "31612345678").effects =
      [Effect.saveSession { sessPhone with
        state := "address",
        customer := { sessPhone.customer with tel := some "31612345678" } }] ∧
    "31".data.isPrefixOf "31612345678".data = true ∧
    "31612345678".data.length = 11 ∧
    some "31612345678" ≠ some "0612345678" := by
  refine ⟨?_, ?_, ?_, ?_⟩ <;> decide

/-- C8, amended.  In the `phone` state the stored `customer.tel` is exactly
the digit string extracted from the (stripped, lowered) utterance — every
session written during the turn carries it — and the customer-directory
lookup uses that same raw digit string; no `31 → 0` normalisation is
applied. -/
theorem C8_amended (env : Env) (s : Session) (speech : String) (s' : Session)
    (hst : s.state = "phone")
    (hstart : containsAny (_norm_txt (pyLower (pyStrip speech))) startPhrases = false)
    (h : Effect.saveSession s' ∈ (handle_utterance env s speech).effects) :
    s'.customer.tel = some (digitsOf (pyLower (pyStrip speech))) := by
  rw [dispatch_phone env s speech hst hstart] at h
  simp only [handlePhone, mkOut] at h
  cases hc : csvLookup env.csvExists env.csvRows (digitsOf (pyLower (pyStrip speech))) with
  | none =>
    simp only [hc] at h
    simp at h
    subst h
    simp
  | some f =>
    simp only [hc] at h
    split_ifs at h <;> simp at h <;>
      (rcases h with rfl | rfl <;> simp [updFound])

/-- C8, witness: the amended statement at the fresh phone-state session
hearing "31612345678". -/
theorem C8_witness :
    ({ sessPhone with
        state := "address",
        customer := { sessPhone.customer with tel := some "31612345678" } } : Session).customer.tel
      = some (digitsOf (pyLower (pyStrip "31612345678"))) :=
  C8_amended envW sessPhone "31612345678" _ rfl (by decide) (by decide)

/-- C2, witness: the amended statement at the body with delay 17. -/
theorem C2_witness :
    isBadRequest (admin_toggles (some [("delay_pasta_minutes", JVal.jn 17)])).1 = false ∧
    ∃ n, n ∈ allowedDelays ∧
      ((admin_toggles (some [("delay_pasta_minutes", JVal.jn 17)])).2.bind
        fun l => l.lookup "delay_pasta_minutes") = some (JVal.jn n) :=
  C2_amended [("delay_pasta_minutes", JVal.jn 17)]

/-- C3, witness: the amended statement at a record containing only
`kitchen_closed` at 19:00. -/
theorem C3_witness :
    evaluate_status (.val [("kitchen_closed", JVal.jb true)]) 68400
      = evaluate_status (.val []) 68400 :=
  C3_amended (JVal.jb true) [] 68400
